import Mathlib

/-!
Verification development for the fitmania-ai exercise analysis engine.

The definitions below are a shallow embedding of the frame-driven analysis
code in `src/app/api/mistral/route.ts` (the `LiveAiScreen` component and its
helpers): the geometry utility `calculateAngle`, the five per-exercise
analysis functions, the hold-timer effect, and the AI-coaching dispatch with
its in-flight guard.  JavaScript numbers are modelled as real numbers; the
React state snapshot read by an analysis callback is modelled as the
`SessionState` passed into the step function, and the state writes performed
during the callback as the returned `SessionState`.
-/

/-- A pose landmark: `{x, y, z, visibility}` as produced by the detector. -/
structure Landmark where
  x : ℝ
  y : ℝ
  z : ℝ
  visibility : ℝ

/-- A per-frame landmark array; `l i` models `landmarks[i]`, which may be
absent (`undefined` in the source). -/
abbrev Frame := ℕ → Option Landmark

/-- Visibility of a possibly-absent landmark (`j.visibility`; an absent
joint contributes visibility 0, which is below every gate threshold,
matching the short-circuit `!j || j.visibility < 0.7`). -/
def vis : Option Landmark → ℝ
  | some j => j.visibility
  | none => 0

/-- x-coordinate of a possibly-absent landmark. -/
def px : Option Landmark → ℝ
  | some j => j.x
  | none => 0

/-- y-coordinate of a possibly-absent landmark. -/
def py : Option Landmark → ℝ
  | some j => j.y
  | none => 0

/-- `Math.atan2 y x`, modelled as the argument of the complex number
`x + y i`, which lies in `(-π, π]` like the JavaScript function. -/
noncomputable def atan2 (y x : ℝ) : ℝ := Complex.arg ⟨x, y⟩

/-- Body of `calculateAngle` on present landmarks: the arctangent-difference
angle at vertex `b`, reflected to the non-reflex range. -/
noncomputable def angleCore (a b c : Landmark) : ℝ :=
  let radians := atan2 (c.y - b.y) (c.x - b.x) - atan2 (a.y - b.y) (a.x - b.x)
  let angle := |radians * 180 / Real.pi|
  if angle > 180 then 360 - angle else angle

/-- `calculateAngle(a, b, c)`: returns 0 when any input is absent. -/
noncomputable def calculateAngle : Option Landmark → Option Landmark → Option Landmark → ℝ
  | some a, some b, some c => angleCore a b c
  | _, _, _ => 0

/-- The stage tags stored in `exerciseStateRef.current.stage`
(the string literals of the source). -/
inductive Stage
  | start
  | down
  | up
  | left_up
  | right_up
deriving DecidableEq, Repr

/-- The active-exercise identifier. -/
inductive Exercise
  | Strength
  | Cardio
  | Yoga
  | HIIT
  | Running
deriving DecidableEq, Repr

/-- The `aiStatus` React state. -/
inductive AiStatus
  | loading
  | ready
  | error
deriving DecidableEq, Repr

/-- The mutable per-session state read and written by one analysis frame:
the ref fields `stage` and `lastAITrigger` plus the React state `repCount`,
`timer` and `isPoseCorrect`. -/
structure SessionState where
  stage : Stage
  lastAITrigger : ℕ
  repCount : ℕ
  timer : ℕ
  isPoseCorrect : Bool
deriving DecidableEq, Repr

/-- The state produced by `resetExerciseState` plus the initial `useState`
values: stage `start`, `lastAITrigger = 0`, counters 0, pose not correct. -/
def resetState : SessionState := ⟨Stage.start, 0, 0, 0, false⟩

/-- The observable effect of one analysis call on one frame: the updated
session state, the `setFeedback` payload (if any), and whether the
AI-coaching trigger condition fired (a `getAICoaching` call was made). -/
structure StepResult where
  state : SessionState
  feedback : Option String
  triggered : Bool
deriving DecidableEq, Repr

/-- The Strength coaching milestone test
`newCount > 0 && newCount % 5 === 0 && newCount !== lastAITrigger`. -/
def strengthTrigger (newCount lastAITrigger : ℕ) : Bool :=
  decide (0 < newCount ∧ newCount % 5 = 0 ∧ newCount ≠ lastAITrigger)

/-- The time-based coaching milestone test shared by Yoga (bucket 10) and
Running (bucket 30): `timer > 0 && timer % bucket === 0 &&
lastAITrigger !== Math.floor(timer / bucket)`. -/
def holdTrigger (bucket timer lastAITrigger : ℕ) : Bool :=
  decide (0 < timer ∧ timer % bucket = 0 ∧ lastAITrigger ≠ timer / bucket)

/-- Post-gate body of `analyzeBicepCurls`, as a function of the computed
elbow angle.  On `angle > 160` the stage becomes `down` (with "great rep"
feedback only when leaving `up`); on `angle < 40` from stage `down` the
stage becomes `up`, `repCount` increments, and the count-based coaching
milestone is evaluated with the new count. -/
noncomputable def bicepCore (angle : ℝ) (st : SessionState) : StepResult :=
  if angle > 160 then
    ⟨{ st with stage := Stage.down },
      if st.stage = Stage.up then some "Lowered fully. Great rep!" else none,
      false⟩
  else if angle < 40 ∧ st.stage = Stage.down then
    let newCount := st.repCount + 1
    let trig := strengthTrigger newCount st.lastAITrigger
    ⟨{ st with
        stage := Stage.up
        repCount := newCount
        lastAITrigger := if trig then newCount else st.lastAITrigger },
      some "Peak contraction! Lower slowly.",
      trig⟩
  else ⟨st, none, false⟩

/-- `analyzeBicepCurls`: visibility gate on left shoulder (11) and left
elbow (13) — the wrist (15) is only checked for presence — then the angle
state machine. -/
noncomputable def analyzeBicepCurls (l : Frame) (st : SessionState) : StepResult :=
  if (l 11).isNone ∨ (l 13).isNone ∨ (l 15).isNone ∨
      vis (l 11) < 0.7 ∨ vis (l 13) < 0.7 then
    ⟨st, some "Ensure your left arm is fully visible to the camera.", false⟩
  else
    bicepCore (calculateAngle (l 11) (l 13) (l 15)) st

/-- Post-gate body of `analyzeJumpingJacks` as a function of the two
derived conditions. -/
def jacksCore (legsApart armsUp : Bool) (st : SessionState) : StepResult :=
  if ¬legsApart ∧ ¬armsUp then
    ⟨{ st with stage := Stage.down },
      if st.stage = Stage.up then some "Ready for the next jump!" else none,
      false⟩
  else if legsApart ∧ armsUp ∧ st.stage = Stage.down then
    ⟨{ st with stage := Stage.up, repCount := st.repCount + 1 },
      some "Excellent! Return to start.",
      false⟩
  else if st.stage = Stage.down ∧ (legsApart ∨ armsUp) then
    ⟨st,
      if legsApart ∧ ¬armsUp then some "Bring your arms up!"
      else if ¬legsApart ∧ armsUp then some "Jump your feet out!"
      else none,
      false⟩
  else ⟨st, none, false⟩

/-- `analyzeJumpingJacks`: gate on presence of shoulders, hips, ankles and
wrists plus left-shoulder visibility only, then the jack state machine on
`legsApart` (ankle separation > 1.2 × hip separation) and `armsUp`. -/
noncomputable def analyzeJumpingJacks (l : Frame) (st : SessionState) : StepResult :=
  if (l 11).isNone ∨ (l 12).isNone ∨ (l 23).isNone ∨ (l 24).isNone ∨
      (l 27).isNone ∨ (l 28).isNone ∨ (l 15).isNone ∨ (l 16).isNone ∨
      vis (l 11) < 0.7 then
    ⟨st, some "Please face the camera and be fully visible.", false⟩
  else
    jacksCore
      (decide (|px (l 27) - px (l 28)| > |px (l 23) - px (l 24)| * 1.2))
      (decide (py (l 15) < py (l 11) ∧ py (l 16) < py (l 12)))
      st

/-- Post-gate body of `analyzeWarriorPose` as a function of the computed
arm and knee angles.  The feedback and pose flag follow the source branch
structure; the coaching milestone test reads the pre-frame `isPoseCorrect`
and `timer` React state (the values captured by the render closure). -/
noncomputable def warriorCore (armAngle kneeAngle : ℝ) (st : SessionState) : StepResult :=
  let trig := st.isPoseCorrect && holdTrigger 10 st.timer st.lastAITrigger
  if armAngle > 160 ∧ (kneeAngle > 85 ∧ kneeAngle < 110) then
    ⟨{ st with
        isPoseCorrect := true
        lastAITrigger := if trig then st.timer / 10 else st.lastAITrigger },
      if ¬st.isPoseCorrect then some "Perfect form! Hold it strong." else none,
      trig⟩
  else
    ⟨{ st with
        isPoseCorrect := false
        lastAITrigger := if trig then st.timer / 10 else st.lastAITrigger },
      some (if kneeAngle ≤ 85 then "Front knee is bent too much. Ease up slightly."
        else if kneeAngle ≥ 110 then "Bend the front knee more to a 90-degree angle."
        else if ¬armAngle > 160 then "Arms are not fully extended. Reach out further!"
        else ""),
      trig⟩

/-- `analyzeWarriorPose`: gate on presence of shoulders (11, 12), left knee
(25), left hip (23), left ankle (27) and left-shoulder visibility — note the
gate also sets `isPoseCorrect` to `false` — then the correctness predicate
on the arm angle at the left shoulder and the knee angle at the left knee.
The left wrist (15) is not gated; if absent, `calculateAngle` yields 0. -/
noncomputable def analyzeWarriorPose (l : Frame) (st : SessionState) : StepResult :=
  if (l 11).isNone ∨ (l 12).isNone ∨ (l 25).isNone ∨ (l 23).isNone ∨
      (l 27).isNone ∨ vis (l 11) < 0.7 then
    ⟨{ st with isPoseCorrect := false },
      some "Ensure your full body is visible from the side.", false⟩
  else
    warriorCore (calculateAngle (l 15) (l 11) (l 12))
      (calculateAngle (l 23) (l 25) (l 27)) st

/-- Post-gate body of `analyzeHighKnees` as a function of the two derived
knee conditions: the left-knee branch is tested first, each entry into
`left_up` or `right_up` from a different stage increments `repCount`. -/
def highKneesCore (leftKneeUp rightKneeUp : Bool) (st : SessionState) : StepResult :=
  if leftKneeUp ∧ st.stage ≠ Stage.left_up then
    ⟨{ st with stage := Stage.left_up, repCount := st.repCount + 1 },
      some "Good! Switch.", false⟩
  else if rightKneeUp ∧ st.stage ≠ Stage.right_up then
    ⟨{ st with stage := Stage.right_up, repCount := st.repCount + 1 },
      some "Nice! Switch.", false⟩
  else if ¬leftKneeUp ∧ ¬rightKneeUp ∧ (st.stage = Stage.left_up ∨ st.stage = Stage.right_up) then
    ⟨{ st with stage := Stage.down }, some "Drive those knees up!", false⟩
  else ⟨st, none, false⟩

/-- `analyzeHighKnees`: gate on presence of hips (23, 24) and knees (25, 26)
plus visibility of the two hips only, then the alternation machine on
`kneeY < hipY`. -/
noncomputable def analyzeHighKnees (l : Frame) (st : SessionState) : StepResult :=
  if (l 23).isNone ∨ (l 25).isNone ∨ (l 24).isNone ∨ (l 26).isNone ∨
      vis (l 23) < 0.7 ∨ vis (l 24) < 0.7 then
    ⟨st, some "Please face the camera, ensuring hips are visible.", false⟩
  else
    highKneesCore (decide (py (l 25) < py (l 23))) (decide (py (l 26) < py (l 24))) st

/-- Post-gate body of `analyzeRunningForm` as a function of the computed
torso angle: feedback fires only on a change of the correctness value, and
the 30-second coaching milestone is evaluated on every post-gate frame. -/
noncomputable def runningCore (backAngle : ℝ) (st : SessionState) : StepResult :=
  let trig := holdTrigger 30 st.timer st.lastAITrigger
  if backAngle < 165 then
    ⟨{ st with
        isPoseCorrect := false
        lastAITrigger := if trig then st.timer / 30 else st.lastAITrigger },
      if st.isPoseCorrect then some "Slight slouch detected. Try to keep your back straighter."
      else none,
      trig⟩
  else
    ⟨{ st with
        isPoseCorrect := true
        lastAITrigger := if trig then st.timer / 30 else st.lastAITrigger },
      if ¬st.isPoseCorrect then some "Excellent posture! Keep up the great pace."
      else none,
      trig⟩

/-- `analyzeRunningForm`: gate on presence of left shoulder (11), left hip
(23), left knee (25) and visibility of shoulder and hip — the gate also sets
`isPoseCorrect` to `false` — then the posture predicate on the
shoulder-hip-knee angle. -/
noncomputable def analyzeRunningForm (l : Frame) (st : SessionState) : StepResult :=
  if (l 11).isNone ∨ (l 23).isNone ∨ (l 25).isNone ∨
      vis (l 11) < 0.7 ∨ vis (l 23) < 0.7 then
    ⟨{ st with isPoseCorrect := false },
      some "Please face sideways to the camera for form analysis.", false⟩
  else
    runningCore (calculateAngle (l 11) (l 23) (l 25)) st

/-- Iterated Strength frames: fold `bicepCore` over a list of elbow angles. -/
noncomputable def bicepRun : List ℝ → SessionState → SessionState
  | [], st => st
  | a :: as, st => bicepRun as (bicepCore a st).state

/-- The rep counts at which the Strength coaching milestone fires along a
run of elbow-angle frames. -/
noncomputable def bicepTriggers : List ℝ → SessionState → List ℕ
  | [], _ => []
  | a :: as, st =>
    (if (bicepCore a st).triggered then [(bicepCore a st).state.repCount] else []) ++
      bicepTriggers as (bicepCore a st).state

/-- Iterated HIIT frames in which both knees are raised. -/
def highKneesRunBoth : ℕ → SessionState → SessionState
  | 0, st => st
  | n + 1, st => highKneesRunBoth n (highKneesCore true true st).state

/-- One second of the timer effect: the interval adds 1 while
`aiStatus === 'ready' && (activeExercise === 'Yoga' || activeExercise ===
'Running') && isPoseCorrect`; otherwise, if the pose is not correct the
timer is reset to 0, and if it is correct (but the exercise is not
hold-type or the engine not ready) the timer is left untouched. -/
def timerTick (status : AiStatus) (ex : Exercise) (poseCorrect : Bool) (timer : ℕ) : ℕ :=
  if status = AiStatus.ready ∧ (ex = Exercise.Yoga ∨ ex = Exercise.Running) ∧ poseCorrect = true then
    timer + 1
  else if poseCorrect = false then 0
  else timer

/-- Iterated correct-hold seconds for the Yoga timer with the engine ready. -/
def holdRun : ℕ → ℕ → ℕ
  | 0, t => t
  | k + 1, t => holdRun k (timerTick AiStatus.ready Exercise.Yoga true t)

/-- Events seen by the coaching dispatch: a milestone trigger firing, or the
in-flight request resolving (the `finally` branch of `getAICoaching`). -/
inductive CoachEvent
  | trigger
  | complete
deriving DecidableEq, Repr

/-- State of the coaching dispatch: the `isLoadingAI` guard plus ghost
counters for the number of dispatched-but-unresolved requests and the total
number of dispatched requests. -/
structure CoachState where
  isLoadingAI : Bool
  outstanding : ℕ
  dispatched : ℕ
deriving DecidableEq, Repr

/-- Initial coaching-dispatch state: `useState(false)`, nothing dispatched. -/
def coachInit : CoachState := ⟨false, 0, 0⟩

/-- One dispatch event: a trigger while `isLoadingAI` is an early return
(the request is dropped, nothing is queued); otherwise the guard is taken
and one request dispatched.  A completion clears the guard. -/
def coachStep (s : CoachState) : CoachEvent → CoachState
  | CoachEvent.trigger =>
    if s.isLoadingAI then s
    else ⟨true, s.outstanding + 1, s.dispatched + 1⟩
  | CoachEvent.complete =>
    if s.isLoadingAI then ⟨false, s.outstanding - 1, s.dispatched⟩ else s

/-- Run the coaching dispatch over a list of events from the initial state. -/
def coachRun (evs : List CoachEvent) : CoachState := evs.foldl coachStep coachInit

/-- Invariant of the coaching dispatch: a request is outstanding exactly
while the guard is held. -/
def coachInv (s : CoachState) : Prop :=
  s.outstanding = if s.isLoadingAI then 1 else 0

/-- Outcome of the `fetch` performed by `callMistralAPI`: an ok response
whose first choice content may be absent, a non-ok HTTP response, or a
thrown network/parse error. -/
inductive ApiOutcome
  | ok (content : Option String)
  | httpError
  | networkError
deriving DecidableEq, Repr

/-- The string returned by the `catch` branch of `callMistralAPI`. -/
def fallbackMessage : String := "AI coach is temporarily unavailable."

/-- `callMistralAPI`: a non-ok response is thrown and caught inside the
helper itself, so every failure resolves to `fallbackMessage`; an ok
response with missing or empty content yields the "No response" text. -/
def callMistralAPI : ApiOutcome → String
  | ApiOutcome.ok (some c) => if c = "" then "No response from AI." else c
  | ApiOutcome.ok none => "No response from AI."
  | ApiOutcome.httpError => fallbackMessage
  | ApiOutcome.networkError => fallbackMessage

/-- Result of one `getAICoaching` invocation: the `setAiCoachMessage`
payload (if any), the number of external calls made, and the guard value
after the invocation settles. -/
structure CoachResult where
  aiCoachMessage : Option String
  calls : ℕ
  isLoadingAI : Bool
deriving DecidableEq, Repr

/-- `getAICoaching`: early return when a request is in flight; otherwise
exactly one external call is made, its resolved string is surfaced as the
coach message, and the guard is cleared in `finally`. -/
def getAICoaching (isLoadingAI : Bool) (outcome : ApiOutcome) : CoachResult :=
  if isLoadingAI then ⟨none, 0, isLoadingAI⟩
  else ⟨some (callMistralAPI outcome), 1, false⟩

/-- `getAICoaching` threaded with the session state: the source function
reads `repCount`/`timer` for the prompt but contains no write to
`repCount`, `timer`, `isPoseCorrect` or the stage ref, so the session state
passes through unchanged. -/
def getAICoachingS (st : SessionState) (isLoadingAI : Bool) (outcome : ApiOutcome) :
    SessionState × CoachResult :=
  (st, getAICoaching isLoadingAI outcome)

/-- Session state with the pose flag held, used as a gate counterexample. -/
def stPoseTrue : SessionState := ⟨Stage.start, 0, 0, 0, true⟩

/-- Session state in the `up` stage, used as a low-visibility-wrist input. -/
def stUp : SessionState := ⟨Stage.up, 0, 0, 0, false⟩

/-- A frame whose left arm is present with a fully-extended geometry but
whose wrist has visibility 0.5 — below the 0.7 threshold the spec demands
for every needed joint, yet not checked by the Strength gate. -/
noncomputable def wristFrame : Frame := fun i =>
  if i = 11 then some ⟨1, 0, 0, 1⟩
  else if i = 13 then some ⟨0, 0, 0, 1⟩
  else if i = 15 then some ⟨-1, 0, 0, 1 / 2⟩
  else none

/-- The elbow-angle run that walks `repCount` through the values 5..10:
starting at rep 4 in stage `down`, each `35` frame completes a rep and each
`170` frame returns to `down`. -/
noncomputable def strengthRunAngles : List ℝ :=
  [35, 170, 35, 170, 35, 170, 35, 170, 35, 170, 35]

/-- Strength session sitting at rep 4 in stage `down`, no milestone fired. -/
def stRun : SessionState := ⟨Stage.down, 0, 4, 0, false⟩

/-- Yoga session at 10 held seconds whose pose flag is down, with no
milestone recorded: the spec trigger condition holds but the code does not
fire. -/
def stYogaCounter : SessionState := ⟨Stage.start, 0, 0, 10, false⟩

/-- Yoga session at 10 held seconds with the pose flag up, hitting the
10-second milestone. -/
def stYogaTrig : SessionState := ⟨Stage.start, 0, 0, 10, true⟩

/-- Running session at 30 held seconds hitting the 30-second milestone. -/
def stRunningTrig : SessionState := ⟨Stage.start, 0, 0, 30, false⟩

/-! ## Geometry utility -/

/-- The argument of a complex number has absolute value at most `π`, so the
modelled `Math.atan2` does too. -/
theorem atan2_abs_le (y x : ℝ) : |atan2 y x| ≤ Real.pi :=
  Complex.abs_arg_le_pi _

/-- The reflection step of `calculateAngle` maps any value in `[0, 360]`
into `[0, 180]`. -/
theorem reflect_bounds (A : ℝ) (h0 : 0 ≤ A) (h : A ≤ 360) :
    0 ≤ (if A > 180 then 360 - A else A) ∧ (if A > 180 then 360 - A else A) ≤ 180 := by
  split
  case isTrue hgt => constructor <;> linarith
  case isFalse hle => push_neg at hle; constructor <;> linarith

/-- The reflection step is invariant under negating the radian difference. -/
theorem reflect_neg (r : ℝ) :
    (if |r * 180 / Real.pi| > 180 then 360 - |r * 180 / Real.pi| else |r * 180 / Real.pi|)
      = (if |(-r) * 180 / Real.pi| > 180 then 360 - |(-r) * 180 / Real.pi|
          else |(-r) * 180 / Real.pi|) := by
  rw [neg_mul, neg_div, abs_neg]

/-- The present-landmark angle always lies in `[0, 180]`. -/
theorem angleCore_nonneg_le (a b c : Landmark) :
    0 ≤ angleCore a b c ∧ angleCore a b c ≤ 180 := by
  have h3 := abs_sub_le (atan2 (c.y - b.y) (c.x - b.x)) 0 (atan2 (a.y - b.y) (a.x - b.x))
  simp only [sub_zero, zero_sub, abs_neg] at h3
  have h1 := atan2_abs_le (c.y - b.y) (c.x - b.x)
  have h2 := atan2_abs_le (a.y - b.y) (a.x - b.x)
  have hpi := Real.pi_pos
  have habs : |(atan2 (c.y - b.y) (c.x - b.x) - atan2 (a.y - b.y) (a.x - b.x)) * 180 / Real.pi|
      ≤ 360 := by
    rw [abs_div, abs_of_pos hpi, abs_mul, div_le_iff₀ hpi]
    have h180 : |(180 : ℝ)| = 180 := by norm_num
    rw [h180]
    nlinarith [abs_nonneg (atan2 (c.y - b.y) (c.x - b.x) - atan2 (a.y - b.y) (a.x - b.x))]
  exact reflect_bounds _ (abs_nonneg _) habs

/-- The present-landmark angle is symmetric in its outer arguments. -/
theorem angleCore_comm (a b c : Landmark) : angleCore a b c = angleCore c b a := by
  have h := reflect_neg (atan2 (c.y - b.y) (c.x - b.x) - atan2 (a.y - b.y) (a.x - b.x))
  rw [neg_sub] at h
  exact h

/-- `atan2 0 1 = 0`, the argument of the positive real axis. -/
theorem atan2_zero_one : atan2 0 1 = 0 := by
  unfold atan2
  have h : (⟨1, 0⟩ : ℂ) = 1 := by
    apply Complex.ext <;> simp
  rw [h, Complex.arg_one]

/-- `atan2 0 (-1) = π`, the argument of the negative real axis. -/
theorem atan2_zero_neg_one : atan2 0 (-1) = Real.pi := by
  unfold atan2
  have h : (⟨-1, 0⟩ : ℂ) = -1 := by
    apply Complex.ext <;> simp
  rw [h, Complex.arg_neg_one]

/-- The fully-extended-arm geometry of `wristFrame` evaluates to 180°. -/
theorem angleCore_flat :
    angleCore ⟨1, 0, 0, 1⟩ ⟨0, 0, 0, 1⟩ ⟨-1, 0, 0, 1 / 2⟩ = 180 := by
  unfold angleCore
  have ha : Real.pi * 180 / Real.pi = 180 := by
    field_simp
  norm_num [atan2_zero_one, atan2_zero_neg_one, ha, Real.pi_pos]

/-- C9: `calculateAngle` is symmetric under swapping its outer arguments,
returns 0 when any input is absent, and always returns a value in the
closed interval `[0, 180]`. -/
theorem calculateAngle_spec : ∀ a b c : Option Landmark,
    calculateAngle a b c = calculateAngle c b a ∧
    calculateAngle none b c = 0 ∧
    calculateAngle a none c = 0 ∧
    calculateAngle a b none = 0 ∧
    0 ≤ calculateAngle a b c ∧ calculateAngle a b c ≤ 180 := by
  intro a b c
  refine ⟨?_, ?_, ?_, ?_, ?_, ?_⟩
  · cases a <;> cases b <;> cases c <;> first | rfl | exact angleCore_comm _ _ _
  · cases b <;> cases c <;> rfl
  · cases a <;> cases c <;> rfl
  · cases a <;> cases b <;> rfl
  · cases a <;> cases b <;> cases c <;>
      first | exact le_refl 0 | exact (angleCore_nonneg_le _ _ _).1
  · cases a <;> cases b <;> cases c <;>
      first | exact (angleCore_nonneg_le _ _ _).2 | norm_num [calculateAngle]

/-! ## Strength (bicep curl) machine -/

/-- The rep counter increments on a frame exactly when the elbow angle is
below 40 and the stage is `down`. -/
theorem bicepCore_rep_succ_iff (angle : ℝ) (st : SessionState) :
    (bicepCore angle st).state.repCount = st.repCount + 1 ↔
      (angle < 40 ∧ st.stage = Stage.down) := by
  by_cases h1 : angle > 160
  · simp only [bicepCore, if_pos h1]
    constructor
    · intro hh; simp at hh
    · rintro ⟨h40, -⟩; linarith
  · by_cases h2 : angle < 40 ∧ st.stage = Stage.down
    · simp [bicepCore, if_neg h1, if_pos h2, h2]
    · simp only [bicepCore, if_neg h1, if_neg h2]
      constructor
      · intro hh; simp at hh
      · intro hh; exact absurd hh h2

/-- The rep counter never decreases across a Strength frame. -/
theorem bicepCore_rep_monotone (angle : ℝ) (st : SessionState) :
    st.repCount ≤ (bicepCore angle st).state.repCount := by
  by_cases h1 : angle > 160
  · simp [bicepCore, if_pos h1]
  · by_cases h2 : angle < 40 ∧ st.stage = Stage.down
    · simp [bicepCore, if_neg h1, if_pos h2]
    · simp [bicepCore, if_neg h1, if_neg h2]

/-- A fired Strength milestone happens on a rep-completing frame and
records the new count in `lastAITrigger`. -/
theorem bicepCore_trig_rep (angle : ℝ) (st : SessionState)
    (h : (bicepCore angle st).triggered = true) :
    (bicepCore angle st).state.repCount = st.repCount + 1 ∧
    (bicepCore angle st).state.lastAITrigger = st.repCount + 1 := by
  by_cases h1 : angle > 160
  · simp [bicepCore, if_pos h1] at h
  · by_cases h2 : angle < 40 ∧ st.stage = Stage.down
    · simp only [bicepCore, if_neg h1, if_pos h2] at h ⊢
      simp [h]
    · simp [bicepCore, if_neg h1, if_neg h2] at h

/-- From stage `up`, a frame whose angle does not exceed 160 changes
nothing: the rep cannot re-fire while the angle oscillates within `up`. -/
theorem bicepCore_up_frozen (angle : ℝ) (st : SessionState)
    (hup : st.stage = Stage.up) (h160 : ¬angle > 160) :
    bicepCore angle st = ⟨st, none, false⟩ := by
  have h2 : ¬(angle < 40 ∧ st.stage = Stage.down) := by
    rintro ⟨-, hdown⟩
    rw [hup] at hdown
    exact absurd hdown (by decide)
  simp [bicepCore, if_neg h160, if_neg h2]

/-- Every milestone recorded along a Strength run exceeds the starting rep
count. -/
theorem bicepTriggers_gt (angles : List ℝ) :
    ∀ st : SessionState, ∀ m ∈ bicepTriggers angles st, st.repCount < m := by
  induction angles with
  | nil => intro st m hm; simp [bicepTriggers] at hm
  | cons a as ih =>
    intro st m hm
    simp only [bicepTriggers, List.mem_append] at hm
    rcases hm with hm | hm
    · by_cases htr : (bicepCore a st).triggered = true
      · rw [if_pos htr] at hm
        simp at hm
        rw [hm, (bicepCore_trig_rep a st htr).1]
        omega
      · rw [if_neg htr] at hm
        simp at hm
    · have h1 := ih (bicepCore a st).state m hm
      have h2 := bicepCore_rep_monotone a st
      omega

/-- The milestones recorded along a Strength run are strictly increasing,
so no mark ever fires twice. -/
theorem bicepTriggers_pairwise (angles : List ℝ) :
    ∀ st : SessionState, List.Pairwise (· < ·) (bicepTriggers angles st) := by
  induction angles with
  | nil => intro st; simp [bicepTriggers]
  | cons a as ih =>
    intro st
    simp only [bicepTriggers]
    by_cases htr : (bicepCore a st).triggered = true
    · rw [if_pos htr]
      simp only [List.singleton_append, List.pairwise_cons]
      exact ⟨fun m hm => bicepTriggers_gt as _ m hm, ih _⟩
    · rw [if_neg htr]
      simp only [List.nil_append]
      exact ih _

/-- C3: the Strength coaching milestone fires exactly when the new rep
count is positive, divisible by 5 and different from `lastAITrigger`; a
firing frame is a rep-completing frame and sets `lastAITrigger` to the new
count; recorded marks are strictly increasing (never two triggers at the
same mark); and the run of rep counts 5..10 triggers exactly at 5 and 10. -/
theorem strength_coaching_trigger_policy :
    (∀ n last, strengthTrigger n last = true ↔ (0 < n ∧ n % 5 = 0 ∧ n ≠ last)) ∧
    (∀ (angle : ℝ) (st : SessionState), (bicepCore angle st).triggered = true →
      (bicepCore angle st).state.repCount = st.repCount + 1 ∧
      (bicepCore angle st).state.lastAITrigger = st.repCount + 1) ∧
    (∀ (angles : List ℝ) (st : SessionState),
      List.Pairwise (· < ·) (bicepTriggers angles st)) ∧
    bicepTriggers strengthRunAngles stRun = [5, 10] := by
  refine ⟨?_, bicepCore_trig_rep, bicepTriggers_pairwise, ?_⟩
  · intro n last; simp [strengthTrigger]
  · norm_num [bicepTriggers, bicepCore, strengthRunAngles, stRun, strengthTrigger]

/-- Witness for C3 at the concrete rep-completing frame with angle 35 from
rep 4: the milestone fires and records mark 5. -/
theorem strength_coaching_trigger_policy_witness :
    (bicepCore (35 : ℝ) stRun).state.repCount = stRun.repCount + 1 ∧
    (bicepCore (35 : ℝ) stRun).state.lastAITrigger = stRun.repCount + 1 :=
  strength_coaching_trigger_policy.2.1 35 stRun
    (by norm_num [bicepCore, stRun, strengthTrigger])

/-- C5: a Strength rep is registered exactly on a `down`-stage frame with
angle below 40, frames within `up` at angle below the 160 reset threshold
change nothing, and the angle sequence `[170, 150, 35, 170]` from a fresh
session yields exactly one rep, registered at the third sample. -/
theorem strength_rep_edge_triggered :
    (∀ (angle : ℝ) (st : SessionState),
      (bicepCore angle st).state.repCount = st.repCount + 1 ↔
        (angle < 40 ∧ st.stage = Stage.down)) ∧
    (∀ (angle : ℝ) (st : SessionState), st.stage = Stage.up → ¬angle > 160 →
      bicepCore angle st = ⟨st, none, false⟩) ∧
    (bicepRun [(170 : ℝ), 150] resetState).repCount = 0 ∧
    (bicepRun [(170 : ℝ), 150, 35] resetState).repCount = 1 ∧
    (bicepRun [(170 : ℝ), 150, 35, 170] resetState).repCount = 1 := by
  refine ⟨bicepCore_rep_succ_iff, bicepCore_up_frozen, ?_, ?_, ?_⟩ <;>
    norm_num [bicepRun, bicepCore, resetState, strengthTrigger]

/-- Witness for C5: from stage `up`, an angle of 150 leaves the session
untouched. -/
theorem strength_rep_edge_triggered_witness :
    bicepCore (150 : ℝ) stUp = ⟨stUp, none, false⟩ :=
  strength_rep_edge_triggered.2.1 150 stUp rfl (by norm_num)

/-- C6 counterexample: from a freshly-reset session (stage `start`), a
fully-visible frame with elbow angle 35 (below 40) leaves the stage at
`start` and the rep count at 0 — it does not transition to `up` with one
rep as the claim asserts, so `start` does not behave as `down` for entry. -/
theorem strength_start_entry_counterexample :
    (bicepCore (35 : ℝ) resetState).state.stage = Stage.start ∧
    (bicepCore (35 : ℝ) resetState).state.repCount = 0 ∧
    Stage.start ≠ Stage.up := by
  have h : bicepCore (35 : ℝ) resetState = ⟨resetState, none, false⟩ := by
    have h160 : ¬(35 : ℝ) > 160 := by norm_num
    have h2 : ¬((35 : ℝ) < 40 ∧ resetState.stage = Stage.down) := by
      rintro ⟨-, hdown⟩
      exact absurd hdown (by decide)
    simp [bicepCore, if_neg h160, if_neg h2]
  rw [h]
  exact ⟨rfl, rfl, by decide⟩

/-- C6 as amended: from stage `start` a frame with angle at most 160 is a
no-op (in particular a sub-40 angle does not count a rep), entry happens
only through an extension frame with angle above 160 which moves the stage
to `down` without counting, after which a sub-40 frame counts the first
rep, as the run `[170, 35]` shows. -/
theorem strength_start_entry :
    (∀ (angle : ℝ) (st : SessionState), st.stage = Stage.start → ¬angle > 160 →
      bicepCore angle st = ⟨st, none, false⟩) ∧
    (∀ (angle : ℝ) (st : SessionState), st.stage = Stage.start → angle > 160 →
      (bicepCore angle st).state.stage = Stage.down ∧
      (bicepCore angle st).state.repCount = st.repCount) ∧
    (bicepRun [(170 : ℝ), 35] resetState).repCount = 1 := by
  refine ⟨?_, ?_, ?_⟩
  · intro angle st hstart h160
    have h2 : ¬(angle < 40 ∧ st.stage = Stage.down) := by
      rintro ⟨-, hdown⟩
      rw [hstart] at hdown
      exact absurd hdown (by decide)
    simp [bicepCore, if_neg h160, if_neg h2]
  · intro angle st hstart h160
    simp [bicepCore, if_pos h160]
  · norm_num [bicepRun, bicepCore, resetState, strengthTrigger]

/-- Witness for C6 as amended: angle 35 from the fresh session is a no-op. -/
theorem strength_start_entry_witness :
    bicepCore (35 : ℝ) resetState = ⟨resetState, none, false⟩ :=
  strength_start_entry.1 35 resetState rfl (by norm_num)

/-! ## Visibility gates -/

/-- C1 as amended: whenever the gate a machine actually implements fires —
any dereferenced joint absent, or one of the joints whose visibility the
machine checks (Strength: shoulder and elbow; Cardio: left shoulder; Yoga:
left shoulder; HIIT: both hips; Running: left shoulder and left hip) below
0.7 — the machine emits its corrective message and leaves `stage`,
`repCount`, `timer` and `lastAITrigger` unchanged and fires no coaching
request; Strength, Cardio and HIIT leave `poseCorrect` unchanged, while
Yoga and Running force it to `false` on the gated frame. -/
theorem visibility_gate_effect :
    (∀ (l : Frame) (st : SessionState),
      ((l 11).isNone ∨ (l 13).isNone ∨ (l 15).isNone ∨
        vis (l 11) < 0.7 ∨ vis (l 13) < 0.7) →
      analyzeBicepCurls l st =
        ⟨st, some "Ensure your left arm is fully visible to the camera.", false⟩) ∧
    (∀ (l : Frame) (st : SessionState),
      ((l 11).isNone ∨ (l 12).isNone ∨ (l 23).isNone ∨ (l 24).isNone ∨
        (l 27).isNone ∨ (l 28).isNone ∨ (l 15).isNone ∨ (l 16).isNone ∨
        vis (l 11) < 0.7) →
      analyzeJumpingJacks l st =
        ⟨st, some "Please face the camera and be fully visible.", false⟩) ∧
    (∀ (l : Frame) (st : SessionState),
      ((l 23).isNone ∨ (l 25).isNone ∨ (l 24).isNone ∨ (l 26).isNone ∨
        vis (l 23) < 0.7 ∨ vis (l 24) < 0.7) →
      analyzeHighKnees l st =
        ⟨st, some "Please face the camera, ensuring hips are visible.", false⟩) ∧
    (∀ (l : Frame) (st : SessionState),
      ((l 11).isNone ∨ (l 12).isNone ∨ (l 25).isNone ∨ (l 23).isNone ∨
        (l 27).isNone ∨ vis (l 11) < 0.7) →
      analyzeWarriorPose l st =
        ⟨{ st with isPoseCorrect := false },
          some "Ensure your full body is visible from the side.", false⟩) ∧
    (∀ (l : Frame) (st : SessionState),
      ((l 11).isNone ∨ (l 23).isNone ∨ (l 25).isNone ∨
        vis (l 11) < 0.7 ∨ vis (l 23) < 0.7) →
      analyzeRunningForm l st =
        ⟨{ st with isPoseCorrect := false },
          some "Please face sideways to the camera for form analysis.", false⟩) := by
  refine ⟨?_, ?_, ?_, ?_, ?_⟩ <;> intro l st h
  · unfold analyzeBicepCurls; rw [if_pos h]
  · unfold analyzeJumpingJacks; rw [if_pos h]
  · unfold analyzeHighKnees; rw [if_pos h]
  · unfold analyzeWarriorPose; rw [if_pos h]
  · unfold analyzeRunningForm; rw [if_pos h]

/-- Witness for C1 as amended: the all-absent frame fires every gate from
the fresh session. -/
theorem visibility_gate_effect_witness :
    analyzeBicepCurls (fun _ => none) resetState =
      ⟨resetState, some "Ensure your left arm is fully visible to the camera.", false⟩ ∧
    analyzeJumpingJacks (fun _ => none) resetState =
      ⟨resetState, some "Please face the camera and be fully visible.", false⟩ ∧
    analyzeHighKnees (fun _ => none) resetState =
      ⟨resetState, some "Please face the camera, ensuring hips are visible.", false⟩ ∧
    analyzeWarriorPose (fun _ => none) resetState =
      ⟨{ resetState with isPoseCorrect := false },
        some "Ensure your full body is visible from the side.", false⟩ ∧
    analyzeRunningForm (fun _ => none) resetState =
      ⟨{ resetState with isPoseCorrect := false },
        some "Please face sideways to the camera for form analysis.", false⟩ :=
  ⟨visibility_gate_effect.1 _ _ (Or.inl rfl),
   visibility_gate_effect.2.1 _ _ (Or.inl rfl),
   visibility_gate_effect.2.2.1 _ _ (Or.inl rfl),
   visibility_gate_effect.2.2.2.1 _ _ (Or.inl rfl),
   visibility_gate_effect.2.2.2.2 _ _ (Or.inl rfl)⟩

/-- C1 counterexample: (a) a gated Yoga frame with `poseCorrect` held does
change a session field — `isPoseCorrect` flips from `true` to `false`; and
(b) a Strength frame whose needed wrist has visibility 0.5 (below 0.7)
passes the gate, advances the stage from `up` to `down` and emits the
"great rep" feedback instead of the corrective message — so state does
advance on a frame with a low-visibility needed joint. -/
theorem visibility_gate_counterexample :
    (analyzeWarriorPose (fun _ => none) stPoseTrue).state.isPoseCorrect = false ∧
    stPoseTrue.isPoseCorrect = true ∧
    vis (wristFrame 15) < 0.7 ∧
    (analyzeBicepCurls wristFrame stUp).state.stage = Stage.down ∧
    stUp.stage = Stage.up ∧
    (analyzeBicepCurls wristFrame stUp).feedback = some "Lowered fully. Great rep!" := by
  have hwarr : analyzeWarriorPose (fun _ => none) stPoseTrue =
      ⟨{ stPoseTrue with isPoseCorrect := false },
        some "Ensure your full body is visible from the side.", false⟩ := by
    unfold analyzeWarriorPose
    exact if_pos (Or.inl rfl)
  have hgate : ¬((wristFrame 11).isNone ∨ (wristFrame 13).isNone ∨ (wristFrame 15).isNone ∨
      vis (wristFrame 11) < 0.7 ∨ vis (wristFrame 13) < 0.7) := by
    norm_num [wristFrame, vis]
  have hangle : calculateAngle (wristFrame 11) (wristFrame 13) (wristFrame 15) = 180 := by
    have e11 : wristFrame 11 = some ⟨1, 0, 0, 1⟩ := by norm_num [wristFrame]
    have e13 : wristFrame 13 = some ⟨0, 0, 0, 1⟩ := by norm_num [wristFrame]
    have e15 : wristFrame 15 = some ⟨-1, 0, 0, 1 / 2⟩ := by norm_num [wristFrame]
    rw [e11, e13, e15]
    exact angleCore_flat
  have hfull : analyzeBicepCurls wristFrame stUp =
      ⟨⟨Stage.down, 0, 0, 0, false⟩, some "Lowered fully. Great rep!", false⟩ := by
    unfold analyzeBicepCurls
    rw [if_neg hgate, hangle]
    norm_num [bicepCore, stUp]
  refine ⟨?_, rfl, ?_, ?_, rfl, ?_⟩
  · rw [hwarr]
  · norm_num [wristFrame, vis]
  · rw [hfull]
  · rw [hfull]

/-! ## Hold-type coaching triggers -/

/-- The Yoga milestone fired by a frame is the pre-frame pose flag
conjoined with the 10-second bucket test, in both branches. -/
theorem warriorCore_triggered (a k : ℝ) (st : SessionState) :
    (warriorCore a k st).triggered =
      (st.isPoseCorrect && holdTrigger 10 st.timer st.lastAITrigger) := by
  simp only [warriorCore]
  split <;> rfl

/-- The Running milestone fired by a frame is the 30-second bucket test,
in both branches. -/
theorem runningCore_triggered (b : ℝ) (st : SessionState) :
    (runningCore b st).triggered = holdTrigger 30 st.timer st.lastAITrigger := by
  simp only [runningCore]
  split <;> rfl

/-- A fired Yoga milestone records the 10-second mark. -/
theorem warriorCore_last (a k : ℝ) (st : SessionState)
    (h : (warriorCore a k st).triggered = true) :
    (warriorCore a k st).state.lastAITrigger = st.timer / 10 := by
  have h2 := warriorCore_triggered a k st
  rw [h] at h2
  by_cases hc : a > 160 ∧ (k > 85 ∧ k < 110)
  · simp only [warriorCore, if_pos hc]
    simp [← h2]
  · simp only [warriorCore, if_neg hc]
    simp [← h2]

/-- A fired Running milestone records the 30-second mark. -/
theorem runningCore_last (b : ℝ) (st : SessionState)
    (h : (runningCore b st).triggered = true) :
    (runningCore b st).state.lastAITrigger = st.timer / 30 := by
  have h2 := runningCore_triggered b st
  rw [h] at h2
  by_cases hc : b < 165
  · simp only [runningCore, if_pos hc]
    simp [← h2]
  · simp only [runningCore, if_neg hc]
    simp [← h2]

/-- C4 as amended: for Running the coaching request fires exactly when
`holdSeconds > 0 ∧ holdSeconds % 30 = 0 ∧ lastTriggerMark ≠ holdSeconds /
30`; for Yoga the same 10-second condition must additionally be conjoined
with the pose-correct flag captured before the frame; and a firing frame
sets `lastTriggerMark` to the time bucket. -/
theorem hold_trigger_policy :
    (∀ (armAngle kneeAngle : ℝ) (st : SessionState),
      (warriorCore armAngle kneeAngle st).triggered =
        (st.isPoseCorrect && holdTrigger 10 st.timer st.lastAITrigger)) ∧
    (∀ (backAngle : ℝ) (st : SessionState),
      (runningCore backAngle st).triggered = holdTrigger 30 st.timer st.lastAITrigger) ∧
    (∀ bucket timer last, holdTrigger bucket timer last = true ↔
      (0 < timer ∧ timer % bucket = 0 ∧ last ≠ timer / bucket)) ∧
    (∀ (armAngle kneeAngle : ℝ) (st : SessionState),
      (warriorCore armAngle kneeAngle st).triggered = true →
      (warriorCore armAngle kneeAngle st).state.lastAITrigger = st.timer / 10) ∧
    (∀ (backAngle : ℝ) (st : SessionState),
      (runningCore backAngle st).triggered = true →
      (runningCore backAngle st).state.lastAITrigger = st.timer / 30) := by
  refine ⟨warriorCore_triggered, runningCore_triggered, ?_, warriorCore_last, runningCore_last⟩
  intro bucket t last
  simp [holdTrigger]

/-- Witness for C4 as amended at the concrete milestones 10 s (Yoga, pose
held) and 30 s (Running). -/
theorem hold_trigger_policy_witness :
    (warriorCore (170 : ℝ) 90 stYogaTrig).state.lastAITrigger = stYogaTrig.timer / 10 ∧
    (runningCore (170 : ℝ) stRunningTrig).state.lastAITrigger = stRunningTrig.timer / 30 :=
  ⟨hold_trigger_policy.2.2.2.1 170 90 stYogaTrig
      (by norm_num [warriorCore, stYogaTrig, holdTrigger]),
   hold_trigger_policy.2.2.2.2 170 stRunningTrig
      (by norm_num [runningCore, stRunningTrig, holdTrigger])⟩

/-- C4 counterexample: a Yoga frame in perfect form at `holdSeconds = 10`
with `lastTriggerMark = 0` satisfies the claimed trigger condition
(`10 > 0`, `10 % 10 = 0`, mark `1 ≠ 0`) yet fires no coaching request,
because the pose-correct flag captured before the frame is `false`. -/
theorem hold_trigger_counterexample :
    (warriorCore (170 : ℝ) 90 stYogaCounter).triggered = false ∧
    0 < stYogaCounter.timer ∧ stYogaCounter.timer % 10 = 0 ∧
    stYogaCounter.lastAITrigger ≠ stYogaCounter.timer / 10 := by
  refine ⟨?_, by decide, by decide, by decide⟩
  norm_num [warriorCore, stYogaCounter, holdTrigger]

/-! ## Hold timer -/

/-- A tick with the pose flag down resets the timer to 0. -/
theorem timerTick_false (s : AiStatus) (ex : Exercise) (t : ℕ) :
    timerTick s ex false t = 0 := by
  unfold timerTick
  rw [if_neg (by simp), if_pos rfl]

/-- Iterated correct-hold ticks add one second each. -/
theorem holdRun_add : ∀ (k t : ℕ), holdRun k t = t + k
  | 0, _ => rfl
  | k + 1, t => by
    show holdRun k (timerTick AiStatus.ready Exercise.Yoga true t) = t + (k + 1)
    have htick : timerTick AiStatus.ready Exercise.Yoga true t = t + 1 := by
      unfold timerTick
      rw [if_pos ⟨rfl, Or.inl rfl, rfl⟩]
    rw [holdRun_add k _, htick]
    omega

/-- C7: the hold timer advances by exactly one second per tick if and only
if the engine is ready, the active exercise is hold-type (Yoga or Running)
and the pose is currently correct; any tick with the pose incorrect resets
the timer to 0 rather than pausing it, and a subsequent correct hold
counts up again from 0. -/
theorem hold_timer_tick_spec :
    (∀ (s : AiStatus) (ex : Exercise) (p : Bool) (t : ℕ),
      timerTick s ex p t = t + 1 ↔
        (s = AiStatus.ready ∧ (ex = Exercise.Yoga ∨ ex = Exercise.Running) ∧ p = true)) ∧
    (∀ (s : AiStatus) (ex : Exercise) (t : ℕ), timerTick s ex false t = 0) ∧
    (∀ k : ℕ, holdRun k 0 = k) ∧
    (∀ (s : AiStatus) (ex : Exercise) (t k : ℕ), holdRun k (timerTick s ex false t) = k) := by
  refine ⟨?_, timerTick_false, ?_, ?_⟩
  · intro s ex p t
    unfold timerTick
    by_cases hc : s = AiStatus.ready ∧ (ex = Exercise.Yoga ∨ ex = Exercise.Running) ∧ p = true
    · rw [if_pos hc]
      simp [hc]
    · rw [if_neg hc]
      by_cases hp : p = false
      · rw [if_pos hp]
        constructor
        · intro h; omega
        · intro h; exact absurd h hc
      · rw [if_neg hp]
        constructor
        · intro h; omega
        · intro h; exact absurd h hc
  · intro k
    rw [holdRun_add]
    omega
  · intro s ex t k
    rw [timerTick_false, holdRun_add]
    omega

/-! ## HIIT (high knees) -/

/-- A both-knees-up frame always increments the rep count by one. -/
theorem highKneesCore_both_rep (st : SessionState) :
    (highKneesCore true true st).state.repCount = st.repCount + 1 := by
  by_cases h : st.stage = Stage.left_up
  · have h2 : Stage.left_up ≠ Stage.right_up := by decide
    simp [highKneesCore, h, h2]
  · simp [highKneesCore, h]

/-- N consecutive both-knees-up frames add N reps. -/
theorem highKneesRunBoth_rep : ∀ (n : ℕ) (st : SessionState),
    (highKneesRunBoth n st).repCount = st.repCount + n
  | 0, _ => rfl
  | n + 1, st => by
    show (highKneesRunBoth n (highKneesCore true true st).state).repCount = st.repCount + (n + 1)
    rw [highKneesRunBoth_rep n _, highKneesCore_both_rep st]
    omega

/-- C10: on a both-knees-up frame the left-knee branch takes priority
whenever the stage is not already `left_up`; from `left_up` the right-knee
branch fires instead; each such frame counts a rep, so a posture with both
knees raised held over N consecutive frames increments `repCount` by N
rather than counting once. -/
theorem highknees_both_up_counts_each_frame :
    (∀ st : SessionState, st.stage ≠ Stage.left_up →
      (highKneesCore true true st).state.stage = Stage.left_up ∧
      (highKneesCore true true st).state.repCount = st.repCount + 1 ∧
      (highKneesCore true true st).feedback = some "Good! Switch.") ∧
    (∀ st : SessionState, st.stage = Stage.left_up →
      (highKneesCore true true st).state.stage = Stage.right_up ∧
      (highKneesCore true true st).state.repCount = st.repCount + 1) ∧
    (∀ (n : ℕ) (st : SessionState),
      (highKneesRunBoth n st).repCount = st.repCount + n) := by
  refine ⟨?_, ?_, highKneesRunBoth_rep⟩
  · intro st h
    refine ⟨?_, ?_, ?_⟩ <;> simp [highKneesCore, h]
  · intro st h
    have h2 : Stage.left_up ≠ Stage.right_up := by decide
    refine ⟨?_, ?_⟩ <;> simp [highKneesCore, h, h2]

/-- Witness for C10 from the fresh session: the first both-up frame goes
left and counts, and four both-up frames count four reps. -/
theorem highknees_both_up_counts_each_frame_witness :
    ((highKneesCore true true resetState).state.stage = Stage.left_up ∧
      (highKneesCore true true resetState).state.repCount = resetState.repCount + 1 ∧
      (highKneesCore true true resetState).feedback = some "Good! Switch.") ∧
    (highKneesRunBoth 4 resetState).repCount = resetState.repCount + 4 :=
  ⟨highknees_both_up_counts_each_frame.1 resetState (by decide),
   highknees_both_up_counts_each_frame.2.2 4 resetState⟩

/-! ## Coaching dispatch -/

/-- One dispatch event preserves the guard invariant. -/
theorem coachStep_inv (s : CoachState) (e : CoachEvent) (h : coachInv s) :
    coachInv (coachStep s e) := by
  cases e <;> by_cases hb : s.isLoadingAI <;>
    simp [coachStep, coachInv, hb] at h ⊢ <;> omega

/-- The guard invariant is preserved along any event list. -/
theorem coachRun_foldl_inv : ∀ (evs : List CoachEvent) (s : CoachState),
    coachInv s → coachInv (List.foldl coachStep s evs)
  | [], _, h => h
  | e :: evs, s, h => coachRun_foldl_inv evs _ (coachStep_inv s e h)

/-- Every reachable dispatch state satisfies the guard invariant. -/
theorem coachRun_inv (evs : List CoachEvent) : coachInv (coachRun evs) :=
  coachRun_foldl_inv evs coachInit rfl

/-- C2: along any sequence of trigger and completion events at most one
coaching request is ever outstanding; a trigger arriving while a request is
in flight leaves the dispatch state exactly as it was (nothing queued,
nothing retried); and once the in-flight request completes the guard is
clear, so the next trigger dispatches a new request. -/
theorem at_most_one_in_flight :
    (∀ evs : List CoachEvent, (coachRun evs).outstanding ≤ 1) ∧
    (∀ s : CoachState, s.isLoadingAI = true → coachStep s CoachEvent.trigger = s) ∧
    (∀ s : CoachState, s.isLoadingAI = true →
      (coachStep s CoachEvent.complete).isLoadingAI = false ∧
      (coachStep (coachStep s CoachEvent.complete) CoachEvent.trigger).dispatched =
        s.dispatched + 1) := by
  refine ⟨?_, ?_, ?_⟩
  · intro evs
    have h := coachRun_inv evs
    unfold coachInv at h
    split at h <;> omega
  · intro s h
    simp [coachStep, h]
  · intro s h
    constructor
    · simp [coachStep, h]
    · simp [coachStep, h]

/-- Witness for C2 at the concrete in-flight state: the second trigger is
dropped, and after completion the next trigger dispatches. -/
theorem at_most_one_in_flight_witness :
    coachStep ⟨true, 1, 1⟩ CoachEvent.trigger = ⟨true, 1, 1⟩ ∧
    (coachStep ⟨true, 1, 1⟩ CoachEvent.complete).isLoadingAI = false ∧
    (coachStep (coachStep ⟨true, 1, 1⟩ CoachEvent.complete) CoachEvent.trigger).dispatched = 2 :=
  ⟨at_most_one_in_flight.2.1 ⟨true, 1, 1⟩ rfl,
   (at_most_one_in_flight.2.2 ⟨true, 1, 1⟩ rfl).1,
   (at_most_one_in_flight.2.2 ⟨true, 1, 1⟩ rfl).2⟩

/-! ## Coaching failure handling -/

/-- C8 counterexample: a failing external call surfaces the fixed fallback
text "AI coach is temporarily unavailable." as the coach message — a
non-empty, present message, not the empty/absent one the claim asserts. -/
theorem coaching_failure_counterexample :
    callMistralAPI ApiOutcome.networkError = "AI coach is temporarily unavailable." ∧
    callMistralAPI ApiOutcome.networkError ≠ "" ∧
    (getAICoaching false ApiOutcome.networkError).aiCoachMessage =
      some "AI coach is temporarily unavailable." ∧
    (getAICoaching false ApiOutcome.networkError).aiCoachMessage ≠ none ∧
    (getAICoaching false ApiOutcome.networkError).aiCoachMessage ≠ some "" := by
  refine ⟨rfl, by decide, rfl, by decide, by decide⟩

/-- C8 as amended: a failing or rejected external call resolves to the
fixed fallback message (`callMistralAPI` catches its own errors, so the
empty-message catch branch of `getAICoaching` is never driven by an API
failure); at most one external call is made per invocation with no
automatic retry; the surfaced message on dispatch is exactly the resolved
string and the guard is released; and the session state — `repCount`,
`timer`, `isPoseCorrect`, `stage` — is untouched by the coaching path. -/
theorem coaching_failure_handling :
    callMistralAPI ApiOutcome.httpError = fallbackMessage ∧
    callMistralAPI ApiOutcome.networkError = fallbackMessage ∧
    (∀ (ld : Bool) (out : ApiOutcome), (getAICoaching ld out).calls ≤ 1) ∧
    (∀ out : ApiOutcome,
      (getAICoaching false out).aiCoachMessage = some (callMistralAPI out) ∧
      (getAICoaching false out).isLoadingAI = false) ∧
    (∀ (st : SessionState) (ld : Bool) (out : ApiOutcome), (getAICoachingS st ld out).1 = st) := by
  refine ⟨rfl, rfl, ?_, ?_, ?_⟩
  · intro ld out
    cases ld <;> simp [getAICoaching]
  · intro out
    exact ⟨rfl, rfl⟩
  · intro st ld out
    rfl
